import Mathlib

/-!
Verification of the OODA reasoning-orchestration core (builtin task agents and
the Program Space) against its specification.

The embedding models the Python source shallowly:
- Python lists of chat messages live in an allocation-only `Heap`, so that
  claims about (non-)mutation of caller-owned lists are expressible;
- Python negative-index slicing (`conversation[-10:]`, `conversation[-10:-1]`)
  is modelled by `pySlice`;
- `json.loads` and the LM call are external capabilities, bundled in `AgentEnv`;
- fallible Python code returns `Except PyError`.
-/

set_option autoImplicit false

/-- A chat message: a role tag and a content string (the Python dicts
with keys "role" and "content"). -/
structure Message where
  role : String
  content : String
deriving DecidableEq, Repr

abbrev Conversation := List Message

/-- A parsed JSON value, as produced by the external JSON decoder. -/
inductive JValue where
  | obj : List (String × JValue) → JValue
  | arr : List JValue → JValue
  | str : String → JValue
  | num : Int → JValue
  | bool : Bool → JValue
  | null : JValue

/-- Python exceptions that the modelled code can raise. -/
inductive PyError where
  | keyError (key : String)
  | attributeError
  | typeError
deriving DecidableEq, Repr

/-- Resolution of a (possibly negative) Python slice endpoint against a
sequence of length `len`: negative indices count from the end, and the
result is clamped into `[0, len]`. -/
def pySliceIdx (len : Nat) (i : Int) : Nat :=
  (max 0 (min (Int.ofNat len) (if i < 0 then Int.ofNat len + i else i))).toNat

/-- Python slice `l[start:stop]` (with `stop = none` meaning `l[start:]`). -/
def pySlice {α : Type} (l : List α) (start : Int) (stop : Option Int) : List α :=
  let s := pySliceIdx l.length start
  let e := match stop with
    | none => l.length
    | some j => pySliceIdx l.length j
  (l.take e).drop s

/-- The whitespace characters stripped by Python str.strip() (ASCII range). -/
def isPyWhitespace (c : Char) : Bool :=
  c = ' ' || c = '\t' || c = '\n' || c = '\r' || c = '\x0b' || c = '\x0c'

/-- Python str.strip(): remove leading and trailing whitespace. -/
def pyStrip (s : String) : String :=
  String.mk (((s.toList.dropWhile isPyWhitespace).reverse.dropWhile isPyWhitespace).reverse)

/-- Python str.startswith(pre): the character sequence of pre is an
initial segment of the character sequence of s. -/
def pyStartswith (s pre : String) : Bool :=
  List.isPrefixOf pre.toList s.toList

/-- Allocation-only heap of Python list objects holding conversations.
An address is an index into cells; the modelled code never writes to an
existing cell (the source never mutates a conversation list in place). -/
structure Heap where
  cells : List Conversation

def Heap.get (h : Heap) (a : Nat) : Conversation :=
  h.cells.getD a []

/-- Allocate a fresh list object, returning the new heap and its address. -/
def Heap.alloc (h : Heap) (v : Conversation) : Heap × Nat :=
  (⟨h.cells ++ [v]⟩, h.cells.length)

def AgentRole.USER : String := "user"

def AgentRole.SYSTEM : String := "system"

def AgentRole.ASSISTANT : String := "assistant"

/-- Python dict lookup `d.get(k)` / `d[k]` on an insertion-ordered dict
modelled as an association list with unique keys. -/
def dictGet {α : Type} : List (String × α) → String → Option α
  | [], _ => none
  | p :: d, k => if p.1 = k then some p.2 else dictGet d k

/-- Python dict assignment `d[k] = v`: overwrite in place if the key is
present (keeping insertion order), else append a new entry. -/
def dictSet {α : Type} (d : List (String × α)) (k : String) (v : α) : List (String × α) :=
  if (dictGet d k).isSome then d.map (fun p => if p.1 = k then (k, v) else p)
  else d ++ [(k, v)]

def dictKeys {α : Type} (d : List (String × α)) : List String :=
  d.map Prod.fst

/-- Python `jobject.get(key, default)`: on a dict, look the key up with a
default; on any non-dict value, raise AttributeError. -/
def pyDictGet (j : JValue) (key : String) (dflt : JValue) : Except PyError JValue :=
  match j with
  | .obj kvs =>
      .ok (match dictGet kvs key with
           | some v => v
           | none => dflt)
  | _ => .error .attributeError

/-- Python str() of an optional list of strings (for prompt interpolation
of the context blob; None prints as "None"). -/
def pyStrOptList : Option (List String) → String
  | none => "None"
  | some l => "[" ++ String.intercalate ", " l ++ "]"

/-- Modelled from the spec: the Prompt Renderer is an external collaborator
(template content is opaque); the ask-user template is filled with the
problem statement and the heuristic. -/
def BuiltInAgentPrompt.ASK_USER_format (problem_statement heuristic : String) : String :=
  "render:ask-user:" ++ problem_statement ++ ":" ++ heuristic

/-- Modelled from the spec: the fixed derive-problem-statement template
(no per-call fields; content opaque). -/
def BuiltInAgentPrompt.PROBLEM_STATEMENT : String :=
  "render:derive-problem-statement"

/-- Modelled from the spec: the content-validation template filled with
the context blob and the query. -/
def BuiltInAgentPrompt.CONTENT_VALIDATION_format (context query : String) : String :=
  "render:content-validation:" ++ context ++ ":" ++ query

/-- Modelled from the spec: the synthesize-result template filled with
the context blob and the query. -/
def BuiltInAgentPrompt.SYNTHESIZE_RESULT_format (context query : String) : String :=
  "render:synthesize-result:" ++ context ++ ":" ++ query

/-- Modelled from the spec: the fixed generate-ooda-plan template. -/
def BuiltInAgentPrompt.GENERATE_OODA_PLAN : String :=
  "render:generate-ooda-plan"

/-- The external capabilities a task agent uses: the LM call
(an ordered message list in, one completion string out) and the JSON
decoder (`none` models a JSONDecodeError). -/
structure AgentEnv where
  llm : Conversation → String
  jsonLoads : String → Option JValue

/-- Result of one `execute` call: the heap afterwards, the returned value
or the escaped exception, and the number of LM invocations performed. -/
structure ExecOut where
  heap : Heap
  result : Except PyError JValue
  llmCalls : Nat

/-- AskUserAgent state after __init__: the stripped heuristic and the
address of the freshly allocated windowed conversation copy. -/
structure AskUserAgent where
  ask_user_heuristic : String
  conversationAddr : Nat

/-- AskUserAgent.__init__: strip the heuristic and store
`conversation[-10:] if conversation else []` as a new list. -/
def AskUserAgent.init (h : Heap) (ask_user_heuristic : String)
    (conversation : Option Nat) : Heap × AskUserAgent :=
  let window : Conversation := match conversation with
    | none => []
    | some a => pySlice (h.get a) (-10) none
  let r := h.alloc window
  (r.1, ⟨pyStrip ask_user_heuristic, r.2⟩)

/-- The message list AskUserAgent.execute sends to the LM:
`self.conversation + [system_message]`. -/
def AskUserAgent.conversationSent (ag : AskUserAgent) (h : Heap) (task : String) : Conversation :=
  h.get ag.conversationAddr ++
    [⟨AgentRole.SYSTEM, BuiltInAgentPrompt.ASK_USER_format task ag.ask_user_heuristic⟩]

/-- AskUserAgent.execute: short-circuit on an empty heuristic; otherwise one
LM call, parse the completion as JSON and return its "question" field,
with empty text as the parse-failure fallback. -/
def AskUserAgent.execute (env : AgentEnv) (h : Heap) (ag : AskUserAgent)
    (task : String) : ExecOut :=
  if ag.ask_user_heuristic = "" then ⟨h, .ok (.str ""), 0⟩
  else
    let conversation := ag.conversationSent h task
    let r := h.alloc conversation
    let json_str := env.llm conversation
    match env.jsonLoads json_str with
    | some jobject => ⟨r.1, pyDictGet jobject "question" (.str ""), 1⟩
    | none => ⟨r.1, .ok (.str ""), 1⟩

/-- GoalAgent state after __init__. -/
structure GoalAgent where
  conversationAddr : Nat

/-- GoalAgent.__init__: store `conversation[-10:] if conversation else []`
as a new list. -/
def GoalAgent.init (h : Heap) (conversation : Option Nat) : Heap × GoalAgent :=
  let window : Conversation := match conversation with
    | none => []
    | some a => pySlice (h.get a) (-10) none
  let r := h.alloc window
  (r.1, ⟨r.2⟩)

/-- The message list GoalAgent.execute sends to the LM:
`self.conversation + [system_message]`. -/
def GoalAgent.conversationSent (ag : GoalAgent) (h : Heap) : Conversation :=
  h.get ag.conversationAddr ++ [⟨AgentRole.SYSTEM, BuiltInAgentPrompt.PROBLEM_STATEMENT⟩]

/-- GoalAgent.execute: one LM call; parse the completion as JSON and return
its "problem statement" field; on parse failure return
`conversation[-1].get("content", "")` where `conversation` is the local
extended list (windowed history plus the appended system message). -/
def GoalAgent.execute (env : AgentEnv) (h : Heap) (ag : GoalAgent)
    (task : String) : ExecOut :=
  let conversation := ag.conversationSent h
  let r := h.alloc conversation
  let json_str := env.llm conversation
  match env.jsonLoads json_str with
  | some jobject => ⟨r.1, pyDictGet jobject "problem statement" (.str ""), 1⟩
  | none => ⟨r.1, .ok (.str ((conversation.getLastD ⟨"", ""⟩).content)), 1⟩

/-- ContextValidator state after __init__. -/
structure ContextValidator where
  conversationAddr : Nat
  context : Option (List String)

/-- ContextValidator.__init__: store `conversation[-10:-1] if conversation
else []` as a new list, and keep the context blob. -/
def ContextValidator.init (h : Heap) (conversation : Option Nat)
    (context : Option (List String)) : Heap × ContextValidator :=
  let window : Conversation := match conversation with
    | none => []
    | some a => pySlice (h.get a) (-10) (some (-1))
  let r := h.alloc window
  (r.1, ⟨r.2, context⟩)

/-- The message list ContextValidator.execute sends to the LM. -/
def ContextValidator.conversationSent (ag : ContextValidator) (h : Heap)
    (task : String) : Conversation :=
  h.get ag.conversationAddr ++
    [⟨"system", BuiltInAgentPrompt.CONTENT_VALIDATION_format (pyStrOptList ag.context) task⟩]

/-- ContextValidator.execute: one LM call; return the parsed JSON value,
with the empty mapping as the parse-failure fallback. -/
def ContextValidator.execute (env : AgentEnv) (h : Heap) (ag : ContextValidator)
    (task : String) : ExecOut :=
  let conversation := ag.conversationSent h task
  let r := h.alloc conversation
  let json_str := env.llm conversation
  match env.jsonLoads json_str with
  | some jobject => ⟨r.1, .ok jobject, 1⟩
  | none => ⟨r.1, .ok (.obj []), 1⟩

/-- SynthesizingAgent state after __init__. -/
structure SynthesizingAgent where
  conversationAddr : Nat
  context : Option (List String)

/-- SynthesizingAgent.__init__: store `conversation[-10:-1] if conversation
else []` as a new list, and keep the context blob. -/
def SynthesizingAgent.init (h : Heap) (conversation : Option Nat)
    (context : Option (List String)) : Heap × SynthesizingAgent :=
  let window : Conversation := match conversation with
    | none => []
    | some a => pySlice (h.get a) (-10) (some (-1))
  let r := h.alloc window
  (r.1, ⟨r.2, context⟩)

/-- The message list SynthesizingAgent.execute sends to the LM. -/
def SynthesizingAgent.conversationSent (ag : SynthesizingAgent) (h : Heap)
    (task : String) : Conversation :=
  h.get ag.conversationAddr ++
    [⟨"system", BuiltInAgentPrompt.SYNTHESIZE_RESULT_format (pyStrOptList ag.context) task⟩]

/-- SynthesizingAgent.execute: one LM call; return the parsed JSON value,
with the empty mapping as the parse-failure fallback. -/
def SynthesizingAgent.execute (env : AgentEnv) (h : Heap) (ag : SynthesizingAgent)
    (task : String) : ExecOut :=
  let conversation := ag.conversationSent h task
  let r := h.alloc conversation
  let json_str := env.llm conversation
  match env.jsonLoads json_str with
  | some jobject => ⟨r.1, .ok jobject, 1⟩
  | none => ⟨r.1, .ok (.obj []), 1⟩

/-- OODAPlanAgent state after __init__. -/
structure OODAPlanAgent where
  conversationAddr : Nat

/-- OODAPlanAgent.__init__: store `conversation[-10:] if conversation
else []` as a new list. -/
def OODAPlanAgent.init (h : Heap) (conversation : Option Nat) : Heap × OODAPlanAgent :=
  let window : Conversation := match conversation with
    | none => []
    | some a => pySlice (h.get a) (-10) none
  let r := h.alloc window
  (r.1, ⟨r.2⟩)

/-- The message list OODAPlanAgent.execute sends to the LM. -/
def OODAPlanAgent.conversationSent (ag : OODAPlanAgent) (h : Heap) : Conversation :=
  h.get ag.conversationAddr ++ [⟨"system", BuiltInAgentPrompt.GENERATE_OODA_PLAN⟩]

/-- OODAPlanAgent.execute: one LM call; return the parsed JSON value,
with the empty mapping as the parse-failure fallback. -/
def OODAPlanAgent.execute (env : AgentEnv) (h : Heap) (ag : OODAPlanAgent)
    (task : String) : ExecOut :=
  let conversation := ag.conversationSent h
  let r := h.alloc conversation
  let json_str := env.llm conversation
  match env.jsonLoads json_str with
  | some jobject => ⟨r.1, .ok jobject, 1⟩
  | none => ⟨r.1, .ok (.obj []), 1⟩

/-- An opaque executable solution plan (the core only sees its identity). -/
structure Program where
  pid : Nat
deriving DecidableEq, Repr

/-- An informational resource, exposing a unique name and an overview. -/
structure Resource where
  unique_name : String
  overview : String

abbrev LMChatHist := List Message

/-- Modelled from the spec: a non-empty Knowledge set is rendered by the
external knowledge-injection collaborator into an auxiliary chat-history
fragment; the set itself is opaque beyond the rendered items. -/
def Knowledge := List String

/-- Modelled from the spec: knowledge_injection_lm_chat_msgs (module not
under src/) renders the knowledge set into LM chat messages. -/
def knowledge_injection_lm_chat_msgs (knowledge : Knowledge) : LMChatHist :=
  [⟨"system", "knowledge:" ++ String.intercalate "; " knowledge⟩]

/-- Modelled from the spec: the rendered program-search prompt, as the
template fields substituted into the opaque program-search template:
the problem statement, the resource-overview mapping and the
JSON-serialized program-description mapping. -/
structure RenderedPrompt where
  problem : String
  resource_overviews : List (String × String)
  program_descriptions : String

/-- A model of Python json.dumps on a dict of strings (string escaping is
irrelevant to the claims and omitted). -/
def jsonDumps (d : List (String × String)) : String :=
  "\x7b" ++
    String.intercalate ", " (d.map (fun p => "\"" ++ p.1 ++ "\": \"" ++ p.2 ++ "\"")) ++
    "\x7d"

/-- Program Space: two insertion-ordered mappings keyed by program name,
plus the LM capability handle (prompt and optional history in, one
completion string out). -/
structure ProgramSpace where
  descriptions : List (String × String)
  programs : List (String × Program)
  lm : RenderedPrompt → Option LMChatHist → String

/-- add_or_update_program: upsert the description and the program under
the given unique name. -/
def ProgramSpace.add_or_update_program (ps : ProgramSpace) (name description : String)
    (program : Program) : ProgramSpace :=
  { ps with descriptions := dictSet ps.descriptions name description,
            programs := dictSet ps.programs name program }

/-- The `knowledge_lm_hist` local of find_program:
`knowledge_injection_lm_chat_msgs(knowledge=knowledge) if knowledge else None`
(None and the empty set are both falsy). -/
def knowledgeHistOpt (knowledge : Option Knowledge) : Option LMChatHist :=
  match knowledge with
  | some k => if List.isEmpty k then none else some (knowledge_injection_lm_chat_msgs k)
  | none => none

/-- The program-search prompt find_program renders when the resources
iterable is present: problem, per-resource overviews keyed by unique name,
and the JSON dump of the registered descriptions. -/
def ProgramSpace.searchPrompt (ps : ProgramSpace) (problem : String)
    (rs : List Resource) : RenderedPrompt :=
  ⟨problem, rs.map (fun r => (r.unique_name, r.overview)), jsonDumps ps.descriptions⟩

/-- find_program: build the optional knowledge history; render the search
prompt (iterating `resources` — a TypeError when it is None, the default);
ask the LM once; `NONE`-prefixed responses mean no match, anything else is
looked up verbatim in the programs dict (KeyError when absent). The
returned ProgramSpace is the state after the call (the method performs no
writes). -/
def ProgramSpace.find_program (ps : ProgramSpace) (problem : String)
    (knowledge : Option Knowledge) (resources : Option (List Resource)) :
    ProgramSpace × Except PyError (Option Program) :=
  let knowledge_lm_hist : Option LMChatHist := knowledgeHistOpt knowledge
  match resources with
  | none => (ps, .error .typeError)
  | some rs =>
    let matching_program_name : String :=
      ps.lm (ps.searchPrompt problem rs) knowledge_lm_hist
    if pyStartswith matching_program_name "NONE" then (ps, .ok none)
    else
      match dictGet ps.programs matching_program_name with
      | some program => (ps, .ok (some program))
      | none => (ps, .error (.keyError matching_program_name))

/-- A sequence of add_or_update_program calls, applied in order. -/
def applyUpserts (ps : ProgramSpace) : List (String × String × Program) → ProgramSpace
  | [] => ps
  | (n, d, p) :: rest => applyUpserts (ps.add_or_update_program n d p) rest

/-! ### Helper lemmas: Python slicing -/

theorem pySlice_last10 {α : Type} (l : List α) :
    pySlice l (-10) none = l.drop (l.length - 10) := by
  simp only [pySlice, pySliceIdx]
  have h1 : ((max 0 (min (Int.ofNat l.length)
      (if (-10 : Int) < 0 then Int.ofNat l.length + (-10) else (-10)))).toNat)
      = l.length - 10 := by
    simp; omega
  rw [h1, List.take_length]

theorem pySlice_last10_drop1 {α : Type} (l : List α) :
    pySlice l (-10) (some (-1)) = (l.take (l.length - 1)).drop (l.length - 10) := by
  simp only [pySlice, pySliceIdx]
  have h1 : ((max 0 (min (Int.ofNat l.length)
      (if (-10 : Int) < 0 then Int.ofNat l.length + (-10) else (-10)))).toNat)
      = l.length - 10 := by
    simp; omega
  have h2 : ((max 0 (min (Int.ofNat l.length)
      (if (-1 : Int) < 0 then Int.ofNat l.length + (-1) else (-1)))).toNat)
      = l.length - 1 := by
    simp; omega
  rw [h1, h2]

theorem pySlice_last10_length {α : Type} (l : List α) :
    (pySlice l (-10) none).length = min l.length 10 := by
  rw [pySlice_last10]; simp [List.length_drop]; omega

theorem pySlice_drop_eq_dropLast {α : Type} (l : List α) :
    pySlice l (-10) (some (-1)) = (pySlice l (-10) none).dropLast := by
  rw [pySlice_last10, pySlice_last10_drop1, List.dropLast_eq_take, List.drop_take,
    List.length_drop]
  congr 1
  omega

theorem pySlice_drop_length {α : Type} (l : List α) :
    (pySlice l (-10) (some (-1))).length = min l.length 10 - 1 := by
  rw [pySlice_drop_eq_dropLast]
  simp [List.length_dropLast, pySlice_last10_length]

theorem pySlice_last10_suffix {α : Type} (l : List α) :
    l.take (l.length - 10) ++ pySlice l (-10) none = l := by
  rw [pySlice_last10]; exact List.take_append_drop _ l

theorem pySlice_drop_infix {α : Type} (l : List α) :
    l.take (l.length - 10) ++ pySlice l (-10) (some (-1)) ++ l.drop (l.length - 1) = l := by
  rw [pySlice_last10_drop1]
  have h1 : (l.take (l.length - 1)).take (l.length - 10) = l.take (l.length - 10) := by
    rw [List.take_take]
    congr 1
    omega
  calc l.take (l.length - 10) ++ (l.take (l.length - 1)).drop (l.length - 10)
        ++ l.drop (l.length - 1)
      = (l.take (l.length - 1)).take (l.length - 10)
        ++ (l.take (l.length - 1)).drop (l.length - 10) ++ l.drop (l.length - 1) := by rw [h1]
    _ = l.take (l.length - 1) ++ l.drop (l.length - 1) := by rw [List.take_append_drop]
    _ = l := List.take_append_drop _ l

theorem pySlice_small_eq {α : Type} (l : List α) (h : l.length < 10) :
    pySlice l (-10) none = l := by
  rw [pySlice_last10]
  have h0 : l.length - 10 = 0 := by omega
  rw [h0, List.drop_zero]

/-! ### Helper lemmas: heap -/

theorem Heap.get_alloc (h : Heap) (v : Conversation) :
    ((h.alloc v).1).get (h.alloc v).2 = v := by
  simp [Heap.alloc, Heap.get, List.getD]

theorem Heap.get_of_extends (h h' : Heap) (ext : List Conversation)
    (he : h'.cells = h.cells ++ ext) (i : Nat) (hi : i < h.cells.length) :
    h'.get i = h.get i := by
  simp only [Heap.get, he, List.getD_eq_getElem?_getD]
  rw [List.getElem?_append_left hi]

/-! ### Helper lemmas: Python str.strip -/

theorem pyStrip_all_ws (s : String) (hw : ∀ c ∈ s.toList, isPyWhitespace c = true) :
    pyStrip s = "" := by
  have h1 : s.data.dropWhile isPyWhitespace = [] := List.dropWhile_eq_nil_iff.mpr hw
  simp [pyStrip, String.toList, h1]

/-! ### Helper lemmas: Python dicts -/

theorem dictGet_append_right {α : Type} (d : List (String × α)) (k : String) (v : α)
    (h : dictGet d k = none) : dictGet (d ++ [(k, v)]) k = some v := by
  induction d with
  | nil => simp [dictGet]
  | cons p d ih =>
    simp only [dictGet] at h ⊢
    by_cases hp : p.1 = k
    · simp [hp] at h
    · simp only [hp, if_false] at h ⊢
      exact ih h

theorem dictGet_map_update {α : Type} (d : List (String × α)) (k : String) (v : α)
    (h : (dictGet d k).isSome) :
    dictGet (d.map (fun p => if p.1 = k then (k, v) else p)) k = some v := by
  induction d with
  | nil => simp [dictGet] at h
  | cons p d ih =>
    by_cases hp : p.1 = k
    · simp [dictGet, hp]
    · simp only [dictGet, hp, if_false] at h
      simp only [List.map_cons]
      rw [if_neg hp]
      simp only [dictGet]
      rw [if_neg hp]
      exact ih h

theorem dictGet_dictSet_self {α : Type} (d : List (String × α)) (k : String) (v : α) :
    dictGet (dictSet d k v) k = some v := by
  unfold dictSet
  by_cases h : (dictGet d k).isSome
  · rw [if_pos h]; exact dictGet_map_update d k v h
  · rw [if_neg h]
    exact dictGet_append_right d k v (by
      cases hh : dictGet d k with
      | none => rfl
      | some w => simp [hh] at h)

theorem dictGet_isSome_iff_mem {α : Type} (d : List (String × α)) (k : String) :
    (dictGet d k).isSome = true ↔ k ∈ dictKeys d := by
  induction d with
  | nil => simp [dictGet, dictKeys]
  | cons p d ih =>
    by_cases hp : p.1 = k
    · simp [dictGet, hp, dictKeys]
    · simp [dictGet, hp, dictKeys, ih, Ne.symm hp]

theorem dictKeys_dictSet {α : Type} (d : List (String × α)) (k : String) (v : α) :
    dictKeys (dictSet d k v) = if k ∈ dictKeys d then dictKeys d else dictKeys d ++ [k] := by
  unfold dictSet
  by_cases h : (dictGet d k).isSome
  · rw [if_pos h, if_pos ((dictGet_isSome_iff_mem d k).mp h)]
    simp only [dictKeys, List.map_map]
    apply List.map_congr_left
    intro p _
    by_cases hp : p.1 = k <;> simp [hp]
  · rw [if_neg h, if_neg (fun hm => h ((dictGet_isSome_iff_mem d k).mpr hm))]
    simp [dictKeys]

theorem askUser_init_stored (h : Heap) (heur : String) (a : Nat) :
    ((AskUserAgent.init h heur (some a)).1).get ((AskUserAgent.init h heur (some a)).2).conversationAddr
      = pySlice (h.get a) (-10) none :=
  Heap.get_alloc h _

theorem goal_init_stored (h : Heap) (a : Nat) :
    ((GoalAgent.init h (some a)).1).get ((GoalAgent.init h (some a)).2).conversationAddr
      = pySlice (h.get a) (-10) none :=
  Heap.get_alloc h _

theorem ooda_init_stored (h : Heap) (a : Nat) :
    ((OODAPlanAgent.init h (some a)).1).get ((OODAPlanAgent.init h (some a)).2).conversationAddr
      = pySlice (h.get a) (-10) none :=
  Heap.get_alloc h _

theorem cv_init_stored (h : Heap) (a : Nat) (ctx : Option (List String)) :
    ((ContextValidator.init h (some a) ctx).1).get ((ContextValidator.init h (some a) ctx).2).conversationAddr
      = pySlice (h.get a) (-10) (some (-1)) :=
  Heap.get_alloc h _

theorem syn_init_stored (h : Heap) (a : Nat) (ctx : Option (List String)) :
    ((SynthesizingAgent.init h (some a) ctx).1).get ((SynthesizingAgent.init h (some a) ctx).2).conversationAddr
      = pySlice (h.get a) (-10) (some (-1)) :=
  Heap.get_alloc h _

theorem askUser_init_cells (h : Heap) (heur : String) (a : Option Nat) :
    ∃ w, ((AskUserAgent.init h heur a).1).cells = h.cells ++ [w] :=
  ⟨_, rfl⟩

theorem askUser_execute_empty_heuristic (env : AgentEnv) (h : Heap) (ag : AskUserAgent)
    (task : String) (he : ag.ask_user_heuristic = "") :
    AskUserAgent.execute env h ag task = ⟨h, .ok (.str ""), 0⟩ := by
  unfold AskUserAgent.execute
  rw [if_pos he]

theorem askUser_execute_nonempty_calls (env : AgentEnv) (h : Heap) (ag : AskUserAgent)
    (task : String) (he : ag.ask_user_heuristic ≠ "") :
    (AskUserAgent.execute env h ag task).llmCalls = 1 := by
  simp only [AskUserAgent.execute]
  rw [if_neg he]
  cases env.jsonLoads (env.llm (ag.conversationSent h task)) <;> rfl

theorem askUser_execute_parse_fail (env : AgentEnv) (h : Heap) (ag : AskUserAgent)
    (task : String) (hp : env.jsonLoads (env.llm (ag.conversationSent h task)) = none) :
    (AskUserAgent.execute env h ag task).result = .ok (.str "") := by
  simp only [AskUserAgent.execute]
  by_cases he : ag.ask_user_heuristic = ""
  · rw [if_pos he]
  · rw [if_neg he, hp]

theorem goal_execute_parse_fail (env : AgentEnv) (h : Heap) (ag : GoalAgent)
    (task : String) (hp : env.jsonLoads (env.llm (ag.conversationSent h)) = none) :
    (GoalAgent.execute env h ag task).result
      = .ok (.str (((ag.conversationSent h).getLastD ⟨"", ""⟩).content)) := by
  simp only [GoalAgent.execute]
  rw [hp]

theorem cv_execute_parse_fail (env : AgentEnv) (h : Heap) (ag : ContextValidator)
    (task : String) (hp : env.jsonLoads (env.llm (ag.conversationSent h task)) = none) :
    (ContextValidator.execute env h ag task).result = .ok (.obj []) := by
  simp only [ContextValidator.execute]
  rw [hp]

theorem syn_execute_parse_fail (env : AgentEnv) (h : Heap) (ag : SynthesizingAgent)
    (task : String) (hp : env.jsonLoads (env.llm (ag.conversationSent h task)) = none) :
    (SynthesizingAgent.execute env h ag task).result = .ok (.obj []) := by
  simp only [SynthesizingAgent.execute]
  rw [hp]

theorem ooda_execute_parse_fail (env : AgentEnv) (h : Heap) (ag : OODAPlanAgent)
    (task : String) (hp : env.jsonLoads (env.llm (ag.conversationSent h)) = none) :
    (OODAPlanAgent.execute env h ag task).result = .ok (.obj []) := by
  simp only [OODAPlanAgent.execute]
  rw [hp]

theorem goal_conversationSent_getLastD (ag : GoalAgent) (h : Heap) :
    ((ag.conversationSent h).getLastD ⟨"", ""⟩).content
      = BuiltInAgentPrompt.PROBLEM_STATEMENT := by
  simp [GoalAgent.conversationSent]

theorem goal_init_cells (h : Heap) (a : Option Nat) :
    ∃ w, ((GoalAgent.init h a).1).cells = h.cells ++ [w] :=
  ⟨_, rfl⟩

theorem ooda_init_cells (h : Heap) (a : Option Nat) :
    ∃ w, ((OODAPlanAgent.init h a).1).cells = h.cells ++ [w] :=
  ⟨_, rfl⟩

theorem cv_init_cells (h : Heap) (a : Option Nat) (ctx : Option (List String)) :
    ∃ w, ((ContextValidator.init h a ctx).1).cells = h.cells ++ [w] :=
  ⟨_, rfl⟩

theorem syn_init_cells (h : Heap) (a : Option Nat) (ctx : Option (List String)) :
    ∃ w, ((SynthesizingAgent.init h a ctx).1).cells = h.cells ++ [w] :=
  ⟨_, rfl⟩

theorem askUser_execute_cells (env : AgentEnv) (h : Heap) (ag : AskUserAgent) (task : String) :
    ∃ ext, (AskUserAgent.execute env h ag task).heap.cells = h.cells ++ ext := by
  simp only [AskUserAgent.execute]
  by_cases he : ag.ask_user_heuristic = ""
  · rw [if_pos he]; exact ⟨[], by simp⟩
  · rw [if_neg he]
    cases env.jsonLoads (env.llm (ag.conversationSent h task)) <;>
      exact ⟨[ag.conversationSent h task], rfl⟩

theorem goal_execute_cells (env : AgentEnv) (h : Heap) (ag : GoalAgent) (task : String) :
    ∃ ext, (GoalAgent.execute env h ag task).heap.cells = h.cells ++ ext := by
  simp only [GoalAgent.execute]
  cases env.jsonLoads (env.llm (ag.conversationSent h)) <;>
    exact ⟨[ag.conversationSent h], rfl⟩

theorem cv_execute_cells (env : AgentEnv) (h : Heap) (ag : ContextValidator) (task : String) :
    ∃ ext, (ContextValidator.execute env h ag task).heap.cells = h.cells ++ ext := by
  simp only [ContextValidator.execute]
  cases env.jsonLoads (env.llm (ag.conversationSent h task)) <;>
    exact ⟨[ag.conversationSent h task], rfl⟩

theorem syn_execute_cells (env : AgentEnv) (h : Heap) (ag : SynthesizingAgent) (task : String) :
    ∃ ext, (SynthesizingAgent.execute env h ag task).heap.cells = h.cells ++ ext := by
  simp only [SynthesizingAgent.execute]
  cases env.jsonLoads (env.llm (ag.conversationSent h task)) <;>
    exact ⟨[ag.conversationSent h task], rfl⟩

theorem ooda_execute_cells (env : AgentEnv) (h : Heap) (ag : OODAPlanAgent) (task : String) :
    ∃ ext, (OODAPlanAgent.execute env h ag task).heap.cells = h.cells ++ ext := by
  simp only [OODAPlanAgent.execute]
  cases env.jsonLoads (env.llm (ag.conversationSent h)) <;>
    exact ⟨[ag.conversationSent h], rfl⟩

theorem cells_extends_frame (h h1 h2 : Heap) (w : Conversation) (ext : List Conversation)
    (h01 : h1.cells = h.cells ++ [w]) (h12 : h2.cells = h1.cells ++ ext) :
    (∃ e, h2.cells = h.cells ++ e) ∧
      ∀ i, i < h.cells.length → h2.get i = h.get i := by
  have hc : h2.cells = h.cells ++ ([w] ++ ext) := by
    rw [h12, h01, List.append_assoc]
  exact ⟨⟨[w] ++ ext, hc⟩, fun i hi => Heap.get_of_extends h h2 ([w] ++ ext) hc i hi⟩

theorem keysEq_add_or_update (ps : ProgramSpace) (n d : String) (p : Program)
    (hk : dictKeys ps.descriptions = dictKeys ps.programs) :
    dictKeys (ps.add_or_update_program n d p).descriptions
      = dictKeys (ps.add_or_update_program n d p).programs := by
  simp only [ProgramSpace.add_or_update_program, dictKeys_dictSet, hk]

theorem keysEq_applyUpserts (ops : List (String × String × Program)) (ps : ProgramSpace)
    (hk : dictKeys ps.descriptions = dictKeys ps.programs) :
    dictKeys (applyUpserts ps ops).descriptions = dictKeys (applyUpserts ps ops).programs := by
  induction ops generalizing ps with
  | nil => exact hk
  | cons op rest ih =>
    exact ih (ps.add_or_update_program op.1 op.2.1 op.2.2) (keysEq_add_or_update ps _ _ _ hk)

/-- C3: for every registry state (and any knowledge argument), find_program
with an iterable resources argument returns the no-match sentinel None
exactly when the LM response string begins with the literal token NONE. -/
theorem find_program_none_iff_NONE (ps : ProgramSpace) (problem : String)
    (kn : Option Knowledge) (rs : List Resource) :
    (ProgramSpace.find_program ps problem kn (some rs)).2 = Except.ok none
  ↔ pyStartswith (ps.lm (ps.searchPrompt problem rs) (knowledgeHistOpt kn)) "NONE" = true := by
  simp only [ProgramSpace.find_program]
  by_cases hs : pyStartswith (ps.lm (ps.searchPrompt problem rs) (knowledgeHistOpt kn)) "NONE" = true
  · simp [hs]
  · rw [if_neg hs]
    cases dictGet ps.programs (ps.lm (ps.searchPrompt problem rs) (knowledgeHistOpt kn)) <;>
      simp [hs]

/-- C5 (code evaluated at the failing input): calling find_program with the
resources argument left at its default None raises TypeError (the dict
comprehension iterates None), leaving the registry unchanged — the prompt
is never rendered with an empty resource-overview mapping. -/
theorem find_program_default_resources_typeError (ps : ProgramSpace) (problem : String)
    (kn : Option Knowledge) :
    ProgramSpace.find_program ps problem kn none = (ps, Except.error PyError.typeError) :=
  rfl

/-- C7: after add_or_update_program(name, d, p) the lookups of name in both
mappings yield exactly d and p (last-write-wins, whether or not name was
present), and from the empty registry every sequence of upserts leaves the
two mappings with identical key sequences. -/
theorem program_space_upsert_invariants (ps : ProgramSpace) (name description : String)
    (program : Program) (lm : RenderedPrompt → Option LMChatHist → String)
    (ops : List (String × String × Program)) :
    dictGet (ps.add_or_update_program name description program).descriptions name
        = some description
  ∧ dictGet (ps.add_or_update_program name description program).programs name = some program
  ∧ dictKeys (applyUpserts ⟨[], [], lm⟩ ops).descriptions
      = dictKeys (applyUpserts ⟨[], [], lm⟩ ops).programs :=
  ⟨dictGet_dictSet_self ps.descriptions name description,
   dictGet_dictSet_self ps.programs name program,
   keysEq_applyUpserts ops ⟨[], [], lm⟩ rfl⟩

/-- C9: when the LM response neither begins with NONE nor is a registered
program name, find_program raises KeyError (returning neither the sentinel
nor a program) and the registry mappings are unchanged by the failed call. -/
theorem find_program_unregistered_keyError (ps : ProgramSpace) (problem : String)
    (kn : Option Knowledge) (rs : List Resource)
    (hs : pyStartswith (ps.lm (ps.searchPrompt problem rs) (knowledgeHistOpt kn)) "NONE" = false)
    (hd : dictGet ps.programs (ps.lm (ps.searchPrompt problem rs) (knowledgeHistOpt kn)) = none) :
    ProgramSpace.find_program ps problem kn (some rs)
      = (ps, Except.error (PyError.keyError
          (ps.lm (ps.searchPrompt problem rs) (knowledgeHistOpt kn)))) := by
  simp only [ProgramSpace.find_program]
  rw [if_neg (by simp [hs]), hd]

/-- Witness for C9 at a concrete registry whose LM answers an unregistered
name. -/
theorem find_program_unregistered_keyError_witness :
    ProgramSpace.find_program ⟨[("a", "descA")], [("a", ⟨0⟩)], fun _ _ => "ghost"⟩ "p" none (some [])
      = (⟨[("a", "descA")], [("a", ⟨0⟩)], fun _ _ => "ghost"⟩, Except.error (PyError.keyError "ghost")) :=
  find_program_unregistered_keyError ⟨[("a", "descA")], [("a", ⟨0⟩)], fun _ _ => "ghost"⟩ "p" none []
    (by decide) (by decide)

/-- C1 counterexample: for the one-message conversation whose last (and
only) message content is PROBLEM_STATEMENT ++ "x", a parse failure makes
GoalAgent.execute return the content of the system message the agent
itself appended (the derive-problem-statement prompt), which differs from
the content of the last message of the original conversation. -/
theorem goal_fallback_counterexample :
    ((GoalAgent.execute ⟨fun _ => "oops", fun _ => none⟩
        (GoalAgent.init ⟨[[⟨"user", BuiltInAgentPrompt.PROBLEM_STATEMENT ++ "x"⟩]]⟩ (some 0)).1
        (GoalAgent.init ⟨[[⟨"user", BuiltInAgentPrompt.PROBLEM_STATEMENT ++ "x"⟩]]⟩ (some 0)).2
        "").result
      = Except.ok (JValue.str BuiltInAgentPrompt.PROBLEM_STATEMENT))
  ∧ ((GoalAgent.execute ⟨fun _ => "oops", fun _ => none⟩
        (GoalAgent.init ⟨[[⟨"user", BuiltInAgentPrompt.PROBLEM_STATEMENT ++ "x"⟩]]⟩ (some 0)).1
        (GoalAgent.init ⟨[[⟨"user", BuiltInAgentPrompt.PROBLEM_STATEMENT ++ "x"⟩]]⟩ (some 0)).2
        "").result
      ≠ Except.ok (JValue.str (BuiltInAgentPrompt.PROBLEM_STATEMENT ++ "x"))) := by
  refine ⟨rfl, ?_⟩
  intro hcontra
  rw [show ((GoalAgent.execute ⟨fun _ => "oops", fun _ => none⟩
        (GoalAgent.init ⟨[[⟨"user", BuiltInAgentPrompt.PROBLEM_STATEMENT ++ "x"⟩]]⟩ (some 0)).1
        (GoalAgent.init ⟨[[⟨"user", BuiltInAgentPrompt.PROBLEM_STATEMENT ++ "x"⟩]]⟩ (some 0)).2
        "").result
      = Except.ok (JValue.str BuiltInAgentPrompt.PROBLEM_STATEMENT)) from rfl] at hcontra
  simp only [Except.ok.injEq, JValue.str.injEq] at hcontra
  exact absurd hcontra (by decide)

/-- C1 (amended): on a JSON parse failure, GoalAgent.execute returns the
content of the last message of the conversation extended with the agent's
own appended system message — i.e. the derive-problem-statement prompt —
for every heap, agent state and environment. -/
theorem goal_fallback_appended_system_message (env : AgentEnv) (h : Heap)
    (ag : GoalAgent) (task : String)
    (hp : env.jsonLoads (env.llm (ag.conversationSent h)) = none) :
    (GoalAgent.execute env h ag task).result
        = Except.ok (JValue.str (((ag.conversationSent h).getLastD ⟨"", ""⟩).content))
  ∧ (GoalAgent.execute env h ag task).result
        = Except.ok (JValue.str BuiltInAgentPrompt.PROBLEM_STATEMENT) := by
  have h1 := goal_execute_parse_fail env h ag task hp
  exact ⟨h1, by rw [h1, goal_conversationSent_getLastD]⟩

/-- Witness for the amended C1 at a concrete conversation and environment. -/
theorem goal_fallback_appended_system_message_witness :
    (GoalAgent.execute ⟨fun _ => "oops", fun _ => none⟩ ⟨[[⟨"user", "hello"⟩]]⟩ ⟨0⟩ "").result
      = Except.ok (JValue.str BuiltInAgentPrompt.PROBLEM_STATEMENT) :=
  (goal_fallback_appended_system_message ⟨fun _ => "oops", fun _ => none⟩
    ⟨[[⟨"user", "hello"⟩]]⟩ ⟨0⟩ "" rfl).2

/-- C2: for a caller conversation of length L and the fixed window K = 10,
the windowed copy stored by AskUserAgent, GoalAgent and OODAPlanAgent is
the last-10 slice (length min(L,10)); the copy stored by ContextValidator
and SynthesizingAgent is that window with its newest entry dropped
(length min(L,10) - 1); retained entries form a contiguous, order-
preserving block of the original; and a conversation with fewer than 10
entries is kept unchanged by the full window. -/
theorem agent_windowing (h : Heap) (a : Nat) (heur : String) (ctx : Option (List String)) :
    ((AskUserAgent.init h heur (some a)).1).get
        ((AskUserAgent.init h heur (some a)).2).conversationAddr
      = pySlice (h.get a) (-10) none
  ∧ ((GoalAgent.init h (some a)).1).get ((GoalAgent.init h (some a)).2).conversationAddr
      = pySlice (h.get a) (-10) none
  ∧ ((OODAPlanAgent.init h (some a)).1).get ((OODAPlanAgent.init h (some a)).2).conversationAddr
      = pySlice (h.get a) (-10) none
  ∧ ((ContextValidator.init h (some a) ctx).1).get
        ((ContextValidator.init h (some a) ctx).2).conversationAddr
      = pySlice (h.get a) (-10) (some (-1))
  ∧ ((SynthesizingAgent.init h (some a) ctx).1).get
        ((SynthesizingAgent.init h (some a) ctx).2).conversationAddr
      = pySlice (h.get a) (-10) (some (-1))
  ∧ (pySlice (h.get a) (-10) none).length = min (h.get a).length 10
  ∧ pySlice (h.get a) (-10) (some (-1)) = (pySlice (h.get a) (-10) none).dropLast
  ∧ (pySlice (h.get a) (-10) (some (-1))).length = min (h.get a).length 10 - 1
  ∧ (h.get a).take ((h.get a).length - 10) ++ pySlice (h.get a) (-10) none = h.get a
  ∧ (h.get a).take ((h.get a).length - 10) ++ pySlice (h.get a) (-10) (some (-1))
      ++ (h.get a).drop ((h.get a).length - 1) = h.get a
  ∧ ((h.get a).length < 10 → pySlice (h.get a) (-10) none = h.get a) :=
  ⟨askUser_init_stored h heur a, goal_init_stored h a, ooda_init_stored h a,
   cv_init_stored h a ctx, syn_init_stored h a ctx,
   pySlice_last10_length (h.get a), pySlice_drop_eq_dropLast (h.get a),
   pySlice_drop_length (h.get a), pySlice_last10_suffix (h.get a),
   pySlice_drop_infix (h.get a), pySlice_small_eq (h.get a)⟩

/-- Witness for C2 at a concrete three-message conversation (shorter than
the window), extracting the kept-unchanged conclusion. -/
theorem agent_windowing_witness :
    ((Heap.get ⟨[[⟨"user", "m1"⟩, ⟨"assistant", "m2"⟩, ⟨"user", "m3"⟩]]⟩ 0).length < 10)
  ∧ pySlice (Heap.get ⟨[[⟨"user", "m1"⟩, ⟨"assistant", "m2"⟩, ⟨"user", "m3"⟩]]⟩ 0) (-10) none
      = Heap.get ⟨[[⟨"user", "m1"⟩, ⟨"assistant", "m2"⟩, ⟨"user", "m3"⟩]]⟩ 0 :=
  ⟨by decide,
   (agent_windowing ⟨[[⟨"user", "m1"⟩, ⟨"assistant", "m2"⟩, ⟨"user", "m3"⟩]]⟩ 0 "q"
      none).2.2.2.2.2.2.2.2.2.2 (by decide)⟩

/-- C4: whenever the LM completion fails JSON parsing, each of the five
execute methods returns normally (no exception) with exactly its
documented fallback: empty text for AskUser, the text of the last message
of the conversation it sent (its appended system prompt) for Goal, and
the empty mapping for ContextValidator, Synthesizer and OODAPlanner. -/
theorem parse_failure_fallbacks (env : AgentEnv) (h : Heap) (task : String)
    (agU : AskUserAgent) (agG : GoalAgent) (agC : ContextValidator)
    (agS : SynthesizingAgent) (agO : OODAPlanAgent)
    (hU : env.jsonLoads (env.llm (agU.conversationSent h task)) = none)
    (hG : env.jsonLoads (env.llm (agG.conversationSent h)) = none)
    (hC : env.jsonLoads (env.llm (agC.conversationSent h task)) = none)
    (hS : env.jsonLoads (env.llm (agS.conversationSent h task)) = none)
    (hO : env.jsonLoads (env.llm (agO.conversationSent h)) = none) :
    (AskUserAgent.execute env h agU task).result = Except.ok (JValue.str "")
  ∧ (GoalAgent.execute env h agG task).result
      = Except.ok (JValue.str (((agG.conversationSent h).getLastD ⟨"", ""⟩).content))
  ∧ (ContextValidator.execute env h agC task).result = Except.ok (JValue.obj [])
  ∧ (SynthesizingAgent.execute env h agS task).result = Except.ok (JValue.obj [])
  ∧ (OODAPlanAgent.execute env h agO task).result = Except.ok (JValue.obj []) :=
  ⟨askUser_execute_parse_fail env h agU task hU,
   goal_execute_parse_fail env h agG task hG,
   cv_execute_parse_fail env h agC task hC,
   syn_execute_parse_fail env h agS task hS,
   ooda_execute_parse_fail env h agO task hO⟩

/-- Witness for C4 with a concrete environment whose completions never
parse as JSON. -/
theorem parse_failure_fallbacks_witness :
    (AskUserAgent.execute ⟨fun _ => "bad", fun _ => none⟩ ⟨[]⟩ ⟨"h", 0⟩ "t").result
        = Except.ok (JValue.str "")
  ∧ (GoalAgent.execute ⟨fun _ => "bad", fun _ => none⟩ ⟨[]⟩ ⟨0⟩ "t").result
        = Except.ok (JValue.str ((((⟨0⟩ : GoalAgent).conversationSent ⟨[]⟩).getLastD
            ⟨"", ""⟩).content))
  ∧ (ContextValidator.execute ⟨fun _ => "bad", fun _ => none⟩ ⟨[]⟩ ⟨0, none⟩ "t").result
        = Except.ok (JValue.obj [])
  ∧ (SynthesizingAgent.execute ⟨fun _ => "bad", fun _ => none⟩ ⟨[]⟩ ⟨0, none⟩ "t").result
        = Except.ok (JValue.obj [])
  ∧ (OODAPlanAgent.execute ⟨fun _ => "bad", fun _ => none⟩ ⟨[]⟩ ⟨0⟩ "t").result
        = Except.ok (JValue.obj []) :=
  parse_failure_fallbacks ⟨fun _ => "bad", fun _ => none⟩ ⟨[]⟩ "t" ⟨"h", 0⟩ ⟨0⟩ ⟨0, none⟩
    ⟨0, none⟩ ⟨0⟩ rfl rfl rfl rfl rfl

/-- C6: AskUserAgent.execute with an empty configured heuristic returns
empty text with zero LM invocations, for every task; with a non-empty
configured heuristic it performs exactly one LM invocation. -/
theorem ask_user_heuristic_gating (env : AgentEnv) (h : Heap) (ag : AskUserAgent)
    (task : String) :
    (ag.ask_user_heuristic = "" →
        AskUserAgent.execute env h ag task = ⟨h, Except.ok (JValue.str ""), 0⟩)
  ∧ (ag.ask_user_heuristic ≠ "" → (AskUserAgent.execute env h ag task).llmCalls = 1) :=
  ⟨askUser_execute_empty_heuristic env h ag task,
   askUser_execute_nonempty_calls env h ag task⟩

/-- Witness for C6: the empty-heuristic agent short-circuits, the
non-empty-heuristic agent makes one LM call. -/
theorem ask_user_heuristic_gating_witness :
    AskUserAgent.execute ⟨fun _ => "r", fun _ => none⟩ ⟨[]⟩ ⟨"", 0⟩ "t"
        = ⟨⟨[]⟩, Except.ok (JValue.str ""), 0⟩
  ∧ (AskUserAgent.execute ⟨fun _ => "r", fun _ => none⟩ ⟨[]⟩ ⟨"ask", 0⟩ "t").llmCalls = 1 :=
  ⟨(ask_user_heuristic_gating ⟨fun _ => "r", fun _ => none⟩ ⟨[]⟩ ⟨"", 0⟩ "t").1 rfl,
   (ask_user_heuristic_gating ⟨fun _ => "r", fun _ => none⟩ ⟨[]⟩ ⟨"ask", 0⟩ "t").2
     (by decide)⟩

/-- C10: a heuristic consisting only of whitespace is stripped to the
empty string by the constructor, so execute returns empty text with zero
LM invocations, exactly as with the empty heuristic. -/
theorem ask_user_whitespace_heuristic (h : Heap) (conv : Option Nat) (env : AgentEnv)
    (task s : String) (hw : ∀ c ∈ s.toList, isPyWhitespace c = true) :
    ((AskUserAgent.init h s conv).2).ask_user_heuristic = ""
  ∧ AskUserAgent.execute env (AskUserAgent.init h s conv).1 (AskUserAgent.init h s conv).2 task
      = ⟨(AskUserAgent.init h s conv).1, Except.ok (JValue.str ""), 0⟩ := by
  have hs : ((AskUserAgent.init h s conv).2).ask_user_heuristic = "" := pyStrip_all_ws s hw
  exact ⟨hs, askUser_execute_empty_heuristic env _ _ task hs⟩

/-- Witness for C10 at the heuristic " \t ". -/
theorem ask_user_whitespace_heuristic_witness :
    ((AskUserAgent.init ⟨[]⟩ " \t " none).2).ask_user_heuristic = ""
  ∧ AskUserAgent.execute ⟨fun _ => "r", fun _ => none⟩ (AskUserAgent.init ⟨[]⟩ " \t " none).1
        (AskUserAgent.init ⟨[]⟩ " \t " none).2 "t"
      = ⟨(AskUserAgent.init ⟨[]⟩ " \t " none).1, Except.ok (JValue.str ""), 0⟩ :=
  ask_user_whitespace_heuristic ⟨[]⟩ none ⟨fun _ => "r", fun _ => none⟩ "t" " \t "
    (by decide)

/-- C8: constructing any of the five agents over a caller conversation and
then executing it only allocates new list objects: the final heap extends
the caller's heap, and every pre-existing cell — in particular the
caller's conversation list — is element-for-element unchanged. -/
theorem agents_do_not_mutate_caller_conversation (env : AgentEnv) (h : Heap)
    (a : Option Nat) (heur task : String) (ctx : Option (List String)) :
    ((∃ ext, (AskUserAgent.execute env (AskUserAgent.init h heur a).1
          (AskUserAgent.init h heur a).2 task).heap.cells = h.cells ++ ext)
      ∧ ∀ i, i < h.cells.length →
          (AskUserAgent.execute env (AskUserAgent.init h heur a).1
            (AskUserAgent.init h heur a).2 task).heap.get i = h.get i)
  ∧ ((∃ ext, (GoalAgent.execute env (GoalAgent.init h a).1
          (GoalAgent.init h a).2 task).heap.cells = h.cells ++ ext)
      ∧ ∀ i, i < h.cells.length →
          (GoalAgent.execute env (GoalAgent.init h a).1
            (GoalAgent.init h a).2 task).heap.get i = h.get i)
  ∧ ((∃ ext, (ContextValidator.execute env (ContextValidator.init h a ctx).1
          (ContextValidator.init h a ctx).2 task).heap.cells = h.cells ++ ext)
      ∧ ∀ i, i < h.cells.length →
          (ContextValidator.execute env (ContextValidator.init h a ctx).1
            (ContextValidator.init h a ctx).2 task).heap.get i = h.get i)
  ∧ ((∃ ext, (SynthesizingAgent.execute env (SynthesizingAgent.init h a ctx).1
          (SynthesizingAgent.init h a ctx).2 task).heap.cells = h.cells ++ ext)
      ∧ ∀ i, i < h.cells.length →
          (SynthesizingAgent.execute env (SynthesizingAgent.init h a ctx).1
            (SynthesizingAgent.init h a ctx).2 task).heap.get i = h.get i)
  ∧ ((∃ ext, (OODAPlanAgent.execute env (OODAPlanAgent.init h a).1
          (OODAPlanAgent.init h a).2 task).heap.cells = h.cells ++ ext)
      ∧ ∀ i, i < h.cells.length →
          (OODAPlanAgent.execute env (OODAPlanAgent.init h a).1
            (OODAPlanAgent.init h a).2 task).heap.get i = h.get i) := by
  refine ⟨?_, ?_, ?_, ?_, ?_⟩
  · obtain ⟨w, hw⟩ := askUser_init_cells h heur a
    obtain ⟨ext, hext⟩ := askUser_execute_cells env (AskUserAgent.init h heur a).1
      (AskUserAgent.init h heur a).2 task
    exact cells_extends_frame h _ _ w ext hw hext
  · obtain ⟨w, hw⟩ := goal_init_cells h a
    obtain ⟨ext, hext⟩ := goal_execute_cells env (GoalAgent.init h a).1
      (GoalAgent.init h a).2 task
    exact cells_extends_frame h _ _ w ext hw hext
  · obtain ⟨w, hw⟩ := cv_init_cells h a ctx
    obtain ⟨ext, hext⟩ := cv_execute_cells env (ContextValidator.init h a ctx).1
      (ContextValidator.init h a ctx).2 task
    exact cells_extends_frame h _ _ w ext hw hext
  · obtain ⟨w, hw⟩ := syn_init_cells h a ctx
    obtain ⟨ext, hext⟩ := syn_execute_cells env (SynthesizingAgent.init h a ctx).1
      (SynthesizingAgent.init h a ctx).2 task
    exact cells_extends_frame h _ _ w ext hw hext
  · obtain ⟨w, hw⟩ := ooda_init_cells h a
    obtain ⟨ext, hext⟩ := ooda_execute_cells env (OODAPlanAgent.init h a).1
      (OODAPlanAgent.init h a).2 task
    exact cells_extends_frame h _ _ w ext hw hext

/-- Witness for C8: the caller's concrete conversation cell is unchanged
after constructing and executing an AskUserAgent over it. -/
theorem agents_do_not_mutate_caller_conversation_witness :
    (AskUserAgent.execute ⟨fun _ => "r", fun _ => none⟩
        (AskUserAgent.init ⟨[[⟨"user", "m"⟩]]⟩ "hx" (some 0)).1
        (AskUserAgent.init ⟨[[⟨"user", "m"⟩]]⟩ "hx" (some 0)).2 "t").heap.get 0
      = Heap.get ⟨[[⟨"user", "m"⟩]]⟩ 0 :=
  (agents_do_not_mutate_caller_conversation ⟨fun _ => "r", fun _ => none⟩
    ⟨[[⟨"user", "m"⟩]]⟩ (some 0) "hx" "t" none).1.2 0 (by decide)
